import Mathlib

/-!
Verification of the llama2-webui conversational core: a shallow embedding of
`llama2_wrapper/model.py` (prompt builder, token accounting, the two
streaming-generation branches) and of `app_4bit_ggml.py` (per-request
validation, the admission gate, and the transcript-streaming session), with
theorems settling the specification's claims about them.

Python strings are modelled as Lean `String` (a sequence of characters);
external collaborators (the llama.cpp model, the transformers tokenizer and
streamer) are opaque function fields of the wrapper structure, so every
theorem quantifies over all possible backend behaviours.
-/

/-- Model of Python `str.strip()`: remove leading and trailing whitespace. -/
def pyStrip (s : String) : String :=
  ⟨((s.data.dropWhile Char.isWhitespace).reverse.dropWhile Char.isWhitespace).reverse⟩

/-- Embeds the Python slice `s[-n:]` (for a positive literal `n`): the last
`n` characters of `s`, or all of `s` when it is shorter than `n`. -/
def pySliceLast (n : Nat) (s : String) : String :=
  ⟨s.data.drop (s.data.length - n)⟩

/-- Specification-side description of "the last `n` characters of `s`",
written independently of the source's slice: reverse, take `n`, reverse. -/
def tailChars (n : Nat) (s : String) : String :=
  ⟨(s.data.reverse.take n).reverse⟩

/-- One formatted history turn, exactly as `get_prompt` appends it:
`"<s>Human: " + user_input.strip() + "\n</s><s>Assistant: " + response.strip() + "\n</s>"`. -/
def turn_block (user_input response : String) : String :=
  "<s>Human: " ++ pyStrip user_input ++ "\n</s><s>Assistant: " ++ pyStrip response ++ "\n</s>"

/-- The turns portion of the prompt: the formatted blocks of the chat history
followed by the final open block for the new message (the accumulated value of
`prompt` in `get_prompt` just before the `prompt[-2048:]` slice). -/
def turnsPortion (message : String) (chat_history : List (String × String)) : String :=
  (chat_history.foldl (fun prompt t => prompt ++ turn_block t.1 t.2) "")
    ++ ("<s>Human: " ++ pyStrip message ++ "\n</s><s>Assistant: ")

/-- The system block `'<s>System: ' + system_prompt.strip() + '\n</s>'`. -/
def sys_block (system_prompt : String) : String :=
  "<s>System: " ++ pyStrip system_prompt ++ "\n</s>"

/-- Embedding of `get_prompt` from `llama2_wrapper/model.py`: format every
history turn and the final open block, keep the last 2048 characters, and
prepend the system block when the system prompt is non-empty. -/
def get_prompt (message : String) (chat_history : List (String × String))
    (system_prompt : String) : String :=
  let prompt := turnsPortion message chat_history
  let prompt := pySliceLast 2048 prompt
  if 0 < system_prompt.length then sys_block system_prompt ++ prompt
  else prompt

/-- llama.cpp token ids are Python ints. -/
abbrev Token := Int

/-- The human-turn marker `'Human:'` that the llama.cpp streaming loop
searches for in the accumulated answer. -/
def humanMarker : List Char := "Human:".data

/-- Model of Python substring containment `needle in s` (for the fixed
needle `'Human:'`): some position of `s` starts with `needle`. -/
def hasMarker (needle : List Char) : List Char → Bool
  | [] => decide (needle = [])
  | c :: cs => needle.isPrefixOf (c :: cs) || hasMarker needle cs

/-- Model of Python `s.split(needle)[0]`: the text strictly before the first
occurrence of `needle` in `s` (all of `s` when `needle` does not occur). -/
def beforeMarker (needle : List Char) : List Char → List Char
  | [] => []
  | c :: cs => if needle.isPrefixOf (c :: cs) then [] else c :: beforeMarker needle cs

/-- Embedding of the `LLAMA2_WRAPPER` class: the dispatch flag
`config.get("llama_cpp")` plus the opaque capabilities of the two external
backends.  For the llama.cpp backend: `tokenize` (`model.tokenize`),
`genTokens` (the token stream `model.generate(inputs, top_p, top_k, temp)`
produces), `decode` (`model.detokenize` followed by utf-8 decoding; `none`
models the swallowed exception for partially-formed bytes), `isEosStr` (the
comparison `token == '</s>'`) and `eosId` (`model.token_eos()`).  For the
transformers backend: `streamTexts` (the texts the `TextIteratorStreamer`
delivers for a prompt and generation parameters) and `hfTokenLen` (the
tokenizer's input-id count for a prompt). -/
structure LLAMA2_WRAPPER where
  llama_cpp : Bool
  tokenize : String → List Token
  genTokens : List Token → Rat → Rat → Nat → List Token
  decode : List Token → Option String
  isEosStr : Token → Bool
  eosId : Token
  streamTexts : String → Nat → Rat → Rat → Nat → List String
  hfTokenLen : String → Nat

/-- One decode step of the llama.cpp loop body's `try` block: append the
token to `new_tokens`, attempt to detokenize-and-decode; on success extend
the answer and clear the buffer, on the swallowed exception keep the answer
and the (now longer) buffer. -/
def decodeStep (w : LLAMA2_WRAPPER) (new_tokens : List Token) (answer_message : String)
    (token : Token) : String × List Token :=
  match w.decode (new_tokens ++ [token]) with
  | some s => (answer_message ++ s, [])
  | none => (answer_message, new_tokens ++ [token])

/-- The `for token in generator` loop of the llama.cpp branch of
`LLAMA2_WRAPPER.generate` (model.py lines 104-130), as a function of the
remaining token stream, the undecoded-byte buffer `new_tokens` and the
accumulated `answer_message`.  Each iteration yields exactly one chunk:
the old answer on the `'</s>'` comparison, the truncated answer on the
`'Human:'` marker, or the newly accumulated answer otherwise; the first
three cases `break`. -/
def llamaCppLoop (w : LLAMA2_WRAPPER) :
    List Token → List Token → String → List String
  | [], _, _ => []
  | token :: rest, new_tokens, answer_message =>
    if w.isEosStr token then [answer_message]
    else if hasMarker humanMarker (decodeStep w new_tokens answer_message token).1.data then
      [⟨beforeMarker humanMarker (decodeStep w new_tokens answer_message token).1.data⟩]
    else if token = w.eosId then [(decodeStep w new_tokens answer_message token).1]
    else (decodeStep w new_tokens answer_message token).1 ::
      llamaCppLoop w rest (decodeStep w new_tokens answer_message token).2
        (decodeStep w new_tokens answer_message token).1

/-- The transformers branch's drain loop: `outputs.append(text)` then
`yield "".join(outputs)` for each streamer text, i.e. one chunk per text,
each the running concatenation. -/
def transformersChunks : String → List String → List String
  | _, [] => []
  | acc, t :: ts => (acc ++ t) :: transformersChunks (acc ++ t) ts

/-- Embedding of `LLAMA2_WRAPPER.generate`: dispatch on the `llama_cpp`
config flag to the llama.cpp streaming loop (seeded with empty buffer and
empty answer) or to the transformers streamer drain. -/
def LLAMA2_WRAPPER.generate (self : LLAMA2_WRAPPER) (prompt : String)
    (max_new_tokens : Nat) (temperature top_p : Rat) (top_k : Nat) : List String :=
  if self.llama_cpp then
    llamaCppLoop self (self.genTokens (self.tokenize prompt) temperature top_p top_k) [] ""
  else
    transformersChunks "" (self.streamTexts prompt max_new_tokens temperature top_p top_k)

/-- Embedding of `LLAMA2_WRAPPER.get_token_length`: token count of a prompt
under the active backend's tokenizer. -/
def LLAMA2_WRAPPER.get_token_length (self : LLAMA2_WRAPPER) (prompt : String) : Nat :=
  if self.llama_cpp then (self.tokenize prompt).length else self.hfTokenLen prompt

/-- Embedding of `LLAMA2_WRAPPER.get_input_token_length`. -/
def LLAMA2_WRAPPER.get_input_token_length (self : LLAMA2_WRAPPER) (message : String)
    (chat_history : List (String × String)) (system_prompt : String) : Nat :=
  self.get_token_length (get_prompt message chat_history system_prompt)

/-- Embedding of `LLAMA2_WRAPPER.run`: build the prompt, then stream. -/
def LLAMA2_WRAPPER.run (self : LLAMA2_WRAPPER) (message : String)
    (chat_history : List (String × String)) (system_prompt : String)
    (max_new_tokens : Nat) (temperature top_p : Rat) (top_k : Nat) : List String :=
  self.generate (get_prompt message chat_history system_prompt)
    max_new_tokens temperature top_p top_k

/-- `MAX_INPUT_TOKEN_LENGTH = 4000` from `app_4bit_ggml.py`. -/
def MAX_INPUT_TOKEN_LENGTH : Nat := 4000

/-- The exact `gr.Error` message text of `check_input_token_length`. -/
def length_error_message (input_token_length : Nat) : String :=
  "The accumulated input is too long (" ++ toString input_token_length ++ " > "
    ++ toString MAX_INPUT_TOKEN_LENGTH ++ "). Clear your chat history and try again."

/-- The two exceptions the app-level request path can raise: the
user-facing `gr.Error` of the admission gate, and the bare `ValueError`
of the `max_new_tokens` check. -/
inductive AppError where
  | lengthError (message : String)
  | valueError
deriving DecidableEq, Repr

/-- A full transcript as the app yields it: the chat history with the
newest turn's answer field. -/
abbrev Transcript := List (String × String)

/-- Embedding of `check_input_token_length` from `app_4bit_ggml.py`:
`some` error iff the measured input token length exceeds the ceiling. -/
def App.check_input_token_length (w : LLAMA2_WRAPPER) (message : String)
    (chat_history : Transcript) (system_prompt : String) : Option AppError :=
  let input_token_length := w.get_input_token_length message chat_history system_prompt
  if MAX_INPUT_TOKEN_LENGTH < input_token_length then
    some (AppError.lengthError (length_error_message input_token_length))
  else none

/-- Embedding of the app's `generate` (app_4bit_ggml.py lines 95-117):
raise `ValueError` when `max_new_tokens > MAX_MAX_NEW_TOKENS`; otherwise
strip the in-flight turn (`history_with_input[:-1]`), stream via the
wrapper, and yield one transcript per chunk — with the `StopIteration`
handler yielding `history + [(message, "")]` once when the engine yields
no chunk at all. -/
def App.generate (MAX_MAX_NEW_TOKENS : Nat) (w : LLAMA2_WRAPPER) (message : String)
    (history_with_input : Transcript) (system_prompt : String)
    (max_new_tokens : Nat) (temperature top_p : Rat) (top_k : Nat) :
    Except Unit (List Transcript) :=
  if MAX_MAX_NEW_TOKENS < max_new_tokens then Except.error ()
  else
    let history := history_with_input.dropLast
    let responses := w.run message history system_prompt max_new_tokens temperature top_p top_k
    match responses with
    | [] => Except.ok [history ++ [(message, "")]]
    | r :: rs => Except.ok ((r :: rs).map fun response => history ++ [(message, response)])

/-- Embedding of the textbox/submit event chain of the app: after
`display_input` has appended the pending turn to the chatbot state,
`check_input_token_length` runs, and `generate` runs only on its success
(`.then(check).success(generate)` wiring). -/
def App.submit_event_chain (MAX_MAX_NEW_TOKENS : Nat) (w : LLAMA2_WRAPPER)
    (message : String) (chatbot : Transcript) (system_prompt : String)
    (max_new_tokens : Nat) (temperature top_p : Rat) (top_k : Nat) :
    Except AppError (List Transcript) :=
  match App.check_input_token_length w message chatbot system_prompt with
  | some e => Except.error e
  | none =>
    match App.generate MAX_MAX_NEW_TOKENS w message chatbot system_prompt
        max_new_tokens temperature top_p top_k with
    | Except.error _ => Except.error AppError.valueError
    | Except.ok transcripts => Except.ok transcripts

/-- Embedding of the `config` dict handed to `create_llama2_model`: each
recognized key either present (`some`) or absent (`none`), mirroring
`config.get(key, default)`. -/
structure ModelConfig where
  model_name : Option String := none
  load_in_8bit : Option Bool := none
  load_in_4bit : Option Bool := none
  llama_cpp : Option Bool := none
  MAX_INPUT_TOKEN_LENGTH : Option Nat := none

/-- Which loading path `create_llama2_model` takes. -/
inductive ModelKind where
  | llamaCpp
  | gptq4bit
  | transformersPath (load_in_8bit : Bool)
deriving DecidableEq, Repr

/-- Embedding of `LLAMA2_WRAPPER.create_llama2_model`'s branch structure:
`if llama_cpp: ... elif load_in_4bit: ... else: ...`, with the source's
defaults `load_in_8bit=True`, `load_in_4bit=False`, `llama_cpp=False`. -/
def create_llama2_model (config : ModelConfig) : ModelKind :=
  let load_in_8bit := config.load_in_8bit.getD true
  let load_in_4bit := config.load_in_4bit.getD false
  let llama_cpp := config.llama_cpp.getD false
  if llama_cpp then ModelKind.llamaCpp
  else if load_in_4bit then ModelKind.gptq4bit
  else ModelKind.transformersPath load_in_8bit

/-- The chunk-length shape the spec's monotonicity law describes: each
chunk is at least `n` long and at least as long as its predecessor, except
that the final chunk may instead be the `'Human:'`-truncated text of some
accumulated answer `a` at least as long as the bound carried in. -/
def GoodChunks : Nat → List String → Prop
  | _, [] => True
  | n, c :: rest =>
    match rest with
    | [] =>
      n ≤ c.length ∨
        ∃ a : String, c.data = beforeMarker humanMarker a.data ∧
          n ≤ a.length ∧ c.length ≤ a.length
    | _ :: _ => n ≤ c.length ∧ GoodChunks c.length rest

/-! ## Lemmas about the prompt builder -/

theorem pySliceLast_eq_tailChars (n : Nat) (s : String) :
    pySliceLast n s = tailChars n s :=
  congrArg String.mk (List.rtake_eq_reverse_take_reverse s.data n)

theorem pySliceLast_data (n : Nat) (s : String) :
    (pySliceLast n s).data = s.data.drop (s.data.length - n) := rfl

theorem tailChars_length (n : Nat) (s : String) :
    (tailChars n s).length = min n s.length := by
  show ((s.data.reverse.take n).reverse).length = min n s.length
  rw [List.length_reverse, List.length_take, List.length_reverse]
  rfl

theorem tailChars_of_length_le (n : Nat) (s : String) (h : s.length ≤ n) :
    tailChars n s = s := by
  show (⟨(s.data.reverse.take n).reverse⟩ : String) = s
  rw [List.take_of_length_le (by simpa using h), List.reverse_reverse]

theorem empty_append_str (s : String) : "" ++ s = s := rfl

/-- A suffix of length at most `n` survives dropping all but the last `n`
elements. -/
theorem suffix_drop_sub (l suf : List Char) (n : Nat) (h : suf <:+ l)
    (hn : suf.length ≤ n) : suf <:+ l.drop (l.length - n) := by
  obtain ⟨u, rfl⟩ := h
  rw [List.drop_append_eq_append_drop]
  have hz : (u ++ suf).length - n - u.length = 0 := by
    simp only [List.length_append]
    omega
  rw [hz, List.drop_zero]
  exact List.suffix_append _ _

theorem assistant_marker_suffix_turnsPortion (message : String)
    (chat_history : List (String × String)) :
    "<s>Assistant: ".data <:+ (turnsPortion message chat_history).data := by
  have h1 : "<s>Assistant: ".data <:+ "\n</s><s>Assistant: ".data := by decide
  have h2 : "\n</s><s>Assistant: ".data <:+ (turnsPortion message chat_history).data := by
    simp only [turnsPortion, String.data_append, List.append_assoc]
    exact (List.suffix_append _ _).trans
      ((List.suffix_append _ _).trans (List.suffix_append _ _))
  exact h1.trans h2

/-- C1: for every message, history and system prompt, `get_prompt` returns
the turns portion truncated to exactly its last 2048 characters when it is
longer than that (and whole otherwise), with the system block prepended
untruncated exactly when the system prompt is non-empty; the truncated
portion's length is `min 2048` of the turns portion's length, so a long
turns portion is cut to exactly 2048 characters. -/
theorem get_prompt_tail_truncation (message : String)
    (chat_history : List (String × String)) (system_prompt : String) :
    get_prompt message chat_history system_prompt =
      (if 0 < system_prompt.length then sys_block system_prompt else "") ++
        (if 2048 < (turnsPortion message chat_history).length then
          tailChars 2048 (turnsPortion message chat_history)
        else turnsPortion message chat_history) ∧
    (tailChars 2048 (turnsPortion message chat_history)).length =
      min 2048 (turnsPortion message chat_history).length := by
  refine ⟨?_, tailChars_length 2048 _⟩
  simp only [get_prompt]
  rw [pySliceLast_eq_tailChars]
  by_cases ht : 2048 < (turnsPortion message chat_history).length
  · rw [if_pos ht]
    by_cases hs : 0 < system_prompt.length
    · rw [if_pos hs, if_pos hs]
    · rw [if_neg hs, if_neg hs, empty_append_str]
  · rw [if_neg ht, tailChars_of_length_le 2048 _ (Nat.le_of_not_lt ht)]
    by_cases hs : 0 < system_prompt.length
    · rw [if_pos hs, if_pos hs]
    · rw [if_neg hs, if_neg hs, empty_append_str]

/-- C9: the prompt built by `get_prompt` always ends with the literal
unterminated assistant-turn opening marker `"<s>Assistant: "`, even when
tail-truncation to 2048 characters fires. -/
theorem get_prompt_ends_with_assistant_marker (message : String)
    (chat_history : List (String × String)) (system_prompt : String) :
    "<s>Assistant: ".data <:+ (get_prompt message chat_history system_prompt).data := by
  have hT := assistant_marker_suffix_turnsPortion message chat_history
  have h2 : "<s>Assistant: ".data <:+
      (pySliceLast 2048 (turnsPortion message chat_history)).data := by
    rw [pySliceLast_data]
    exact suffix_drop_sub _ _ 2048 hT (by decide)
  simp only [get_prompt]
  by_cases hs : 0 < system_prompt.length
  · rw [if_pos hs, String.data_append]
    exact h2.trans (List.suffix_append _ _)
  · rw [if_neg hs]
    exact h2

/-! ## Lemmas about the human-turn marker search -/

theorem beforeMarker_length_le (needle l : List Char) :
    (beforeMarker needle l).length ≤ l.length := by
  induction l with
  | nil => simp [beforeMarker]
  | cons c cs ih =>
    simp only [beforeMarker]
    split
    · simp
    · simp only [List.length_cons]
      exact Nat.succ_le_succ ih

/-- When the marker occurs, `beforeMarker` really is text standing before an
occurrence: followed by the needle it is a prefix of the whole string. -/
theorem beforeMarker_append_prefix (needle l : List Char)
    (h : hasMarker needle l = true) : beforeMarker needle l ++ needle <+: l := by
  induction l with
  | nil =>
    simp only [hasMarker, decide_eq_true_eq] at h
    subst h
    simp [beforeMarker]
  | cons c cs ih =>
    simp only [hasMarker, Bool.or_eq_true] at h
    by_cases hp : needle.isPrefixOf (c :: cs) = true
    · simp only [beforeMarker, if_pos hp]
      simpa using List.isPrefixOf_iff_prefix.mp hp
    · simp only [beforeMarker, if_neg hp]
      have h2 : hasMarker needle cs = true := by
        rcases h with h | h
        · exact absurd h hp
        · exact h
      rw [List.cons_append]
      exact List.cons_prefix_cons.mpr ⟨rfl, ih h2⟩

/-- `beforeMarker` finds the FIRST occurrence: it is no longer than the text
before any occurrence of the needle. -/
theorem beforeMarker_min (needle : List Char) : ∀ l p q : List Char,
    l = p ++ needle ++ q → (beforeMarker needle l).length ≤ p.length := by
  intro l
  induction l with
  | nil =>
    intro p q h
    have hp : p = [] := by
      cases p with
      | nil => rfl
      | cons a as => simp at h
    subst hp
    simp [beforeMarker]
  | cons c cs ih =>
    intro p q h
    by_cases hp : needle.isPrefixOf (c :: cs) = true
    · simp only [beforeMarker, if_pos hp, List.length_nil]
      exact Nat.zero_le _
    · simp only [beforeMarker, if_neg hp]
      cases p with
      | nil =>
        exfalso
        apply hp
        apply List.isPrefixOf_iff_prefix.mpr
        exact ⟨q, by simpa using h.symm⟩
      | cons a as =>
        have hcs : cs = as ++ needle ++ q := by
          have := h
          simp only [List.cons_append, List.cons.injEq] at this
          simpa [List.append_assoc] using this.2
        simp only [List.length_cons]
        exact Nat.succ_le_succ (ih as q hcs)

/-! ## Lemmas about the streaming loops -/

theorem decodeStep_length_le (w : LLAMA2_WRAPPER) (pending : List Token)
    (answer : String) (t : Token) :
    answer.length ≤ (decodeStep w pending answer t).1.length := by
  unfold decodeStep
  cases w.decode (pending ++ [t]) with
  | none => exact le_rfl
  | some s => simp [String.length_append]

theorem llamaCppLoop_good (w : LLAMA2_WRAPPER) (ts : List Token) :
    ∀ pending answer, GoodChunks answer.length (llamaCppLoop w ts pending answer) := by
  induction ts with
  | nil =>
    intro pending answer
    simp [llamaCppLoop, GoodChunks]
  | cons t rest ih =>
    intro pending answer
    have hstep := decodeStep_length_le w pending answer t
    by_cases h1 : w.isEosStr t = true
    · simp only [llamaCppLoop, if_pos h1, GoodChunks]
      exact Or.inl le_rfl
    · by_cases h2 : hasMarker humanMarker (decodeStep w pending answer t).1.data = true
      · simp only [llamaCppLoop, if_neg h1, if_pos h2, GoodChunks]
        refine Or.inr ⟨(decodeStep w pending answer t).1, rfl, hstep, ?_⟩
        exact beforeMarker_length_le humanMarker (decodeStep w pending answer t).1.data
      · by_cases h3 : t = w.eosId
        · simp only [llamaCppLoop, if_neg h1, if_neg h2, if_pos h3, GoodChunks]
          exact Or.inl hstep
        · simp only [llamaCppLoop, if_neg h1, if_neg h2, if_neg h3]
          have hrec := ih (decodeStep w pending answer t).2 (decodeStep w pending answer t).1
          cases hrec' : llamaCppLoop w rest (decodeStep w pending answer t).2
              (decodeStep w pending answer t).1 with
          | nil =>
            simp only [GoodChunks]
            exact Or.inl hstep
          | cons a as =>
            rw [hrec'] at hrec
            simp only [GoodChunks]
            exact ⟨hstep, hrec⟩

theorem transformersChunks_good (ts : List String) :
    ∀ acc, GoodChunks acc.length (transformersChunks acc ts) := by
  induction ts with
  | nil =>
    intro acc
    simp [transformersChunks, GoodChunks]
  | cons t ts ih =>
    intro acc
    simp only [transformersChunks]
    have hlen : acc.length ≤ (acc ++ t).length := by simp [String.length_append]
    cases hrec : transformersChunks (acc ++ t) ts with
    | nil =>
      simp only [GoodChunks]
      exact Or.inl hlen
    | cons a as =>
      have hgood := ih (acc ++ t)
      rw [hrec] at hgood
      simp only [GoodChunks]
      exact ⟨hlen, hgood⟩

/-- From `GoodChunks`: every adjacent pair of chunks except possibly the
final pair has non-decreasing length. -/
theorem goodChunks_pairwise (C : List String) : ∀ n, GoodChunks n C →
    ∀ i, i + 2 < C.length → (C.getD i "").length ≤ (C.getD (i + 1) "").length := by
  induction C with
  | nil =>
    intro n _ i hi
    simp at hi
  | cons c rest ih =>
    intro n h i hi
    cases rest with
    | nil =>
      simp only [List.length_cons, List.length_nil] at hi
      omega
    | cons c' rest' =>
      cases i with
      | zero =>
        cases rest' with
        | nil =>
          simp only [List.length_cons, List.length_nil] at hi
          omega
        | cons c'' r'' =>
          simpa using h.2.1
      | succ j =>
        have hj : j + 2 < (c' :: rest').length := by
          simp only [List.length_cons] at hi ⊢
          omega
        simpa using ih c.length h.2 j hj

theorem llamaCppLoop_cons_ne_nil (w : LLAMA2_WRAPPER) (t : Token)
    (rest pending : List Token) (answer : String) :
    llamaCppLoop w (t :: rest) pending answer ≠ [] := by
  simp only [llamaCppLoop]
  by_cases h1 : w.isEosStr t = true
  · rw [if_pos h1]
    simp
  · rw [if_neg h1]
    by_cases h2 : hasMarker humanMarker (decodeStep w pending answer t).1.data = true
    · rw [if_pos h2]
      simp
    · rw [if_neg h2]
      by_cases h3 : t = w.eosId
      · rw [if_pos h3]
        simp
      · rw [if_neg h3]
        simp

theorem llamaCppLoop_eq_nil_iff (w : LLAMA2_WRAPPER) (ts pending : List Token)
    (answer : String) : llamaCppLoop w ts pending answer = [] ↔ ts = [] := by
  cases ts with
  | nil => simp [llamaCppLoop]
  | cons t rest =>
    constructor
    · intro h
      exact absurd h (llamaCppLoop_cons_ne_nil w t rest pending answer)
    · intro h
      simp at h

theorem transformersChunks_eq_nil_iff (acc : String) (ts : List String) :
    transformersChunks acc ts = [] ↔ ts = [] := by
  cases ts with
  | nil => simp [transformersChunks]
  | cons t rest => simp [transformersChunks]

/-! ## Concrete backend instantiations used as test inputs -/

/-- A llama.cpp-flagged wrapper whose token generator produces zero tokens. -/
def emptyEngineWrapper : LLAMA2_WRAPPER where
  llama_cpp := true
  tokenize := fun _ => []
  genTokens := fun _ _ _ _ => []
  decode := fun _ => none
  isEosStr := fun _ => false
  eosId := 0
  streamTexts := fun _ _ _ _ _ => []
  hfTokenLen := fun _ => 0

/-- A llama.cpp-flagged wrapper whose single token decodes to a text that
contains the `'Human:'` marker. -/
def markerWrapper : LLAMA2_WRAPPER where
  llama_cpp := true
  tokenize := fun _ => []
  genTokens := fun _ _ _ _ => [7]
  decode := fun _ => some "abcHuman: ignore this"
  isEosStr := fun _ => false
  eosId := -1
  streamTexts := fun _ _ _ _ _ => []
  hfTokenLen := fun _ => 0

/-- C3 counterexample: the claim asserts both branches yield at least one
chunk even when the backend produces zero tokens, but in the llama.cpp
branch a backend producing zero tokens makes `generate` yield zero chunks
(the loop body never runs and there is no yield outside it). -/
theorem llama_cpp_zero_tokens_zero_chunks :
    LLAMA2_WRAPPER.generate emptyEngineWrapper "<s>Human: Hi\n</s><s>Assistant: "
      1024 1 1 50 = [] := rfl

/-- C3 (amended): in each branch, `generate` yields at least one chunk
exactly when the backend stream yields at least one item — equivalently,
the chunk stream is empty iff the backend stream is empty, so a backend
producing zero tokens gives zero chunks, not one empty chunk. -/
theorem generate_nil_iff_backend_nil (w : LLAMA2_WRAPPER) (prompt : String)
    (max_new_tokens : Nat) (temperature top_p : Rat) (top_k : Nat) :
    (w.llama_cpp = true →
      (w.generate prompt max_new_tokens temperature top_p top_k = [] ↔
        w.genTokens (w.tokenize prompt) temperature top_p top_k = []))
    ∧ (w.llama_cpp = false →
      (w.generate prompt max_new_tokens temperature top_p top_k = [] ↔
        w.streamTexts prompt max_new_tokens temperature top_p top_k = [])) := by
  constructor
  · intro h
    simp only [LLAMA2_WRAPPER.generate, h, if_true]
    exact llamaCppLoop_eq_nil_iff w _ [] ""
  · intro h
    simp only [LLAMA2_WRAPPER.generate, h, Bool.false_eq_true, if_false]
    exact transformersChunks_eq_nil_iff "" _

/-- C4: in the llama.cpp stream, whenever the answer accumulated by the
current decode step comes to contain the `'Human:'` marker, the loop stops
after emitting exactly one final chunk, equal to the text strictly before
the FIRST occurrence of the marker: followed by the marker it is a prefix
of the accumulated answer, and it is no longer than the text before any
occurrence. -/
theorem human_marker_truncation (w : LLAMA2_WRAPPER) (token : Token)
    (rest pending : List Token) (answer_message : String)
    (h1 : w.isEosStr token = false)
    (h2 : hasMarker humanMarker (decodeStep w pending answer_message token).1.data = true) :
    llamaCppLoop w (token :: rest) pending answer_message
        = [⟨beforeMarker humanMarker (decodeStep w pending answer_message token).1.data⟩]
      ∧ beforeMarker humanMarker (decodeStep w pending answer_message token).1.data
          ++ humanMarker <+: (decodeStep w pending answer_message token).1.data
      ∧ ∀ p q : List Char,
          (decodeStep w pending answer_message token).1.data = p ++ humanMarker ++ q →
            (beforeMarker humanMarker (decodeStep w pending answer_message token).1.data).length
              ≤ p.length := by
  refine ⟨?_, beforeMarker_append_prefix _ _ h2, fun p q hpq => beforeMarker_min _ _ p q hpq⟩
  simp only [llamaCppLoop]
  rw [if_neg (by simp [h1]), if_pos h2]

/-- C4 witness: a concrete one-token stream whose decode step accumulates
`"abcHuman: ignore this"`; the loop emits exactly the truncated chunk. -/
theorem human_marker_truncation_witness :
    llamaCppLoop markerWrapper [7] [] ""
      = [⟨beforeMarker humanMarker (decodeStep markerWrapper [] "" 7).1.data⟩] :=
  (human_marker_truncation markerWrapper 7 [] [] "" rfl (by decide)).1

/-- C5: for every request (both backends, all backend behaviours), the chunk
stream satisfies the monotonicity law: `GoodChunks 0` — every chunk extends
its bound and every adjacent pair is non-decreasing in length, except that
the final chunk may be the `'Human:'`-truncation of an accumulated answer at
least as long as the bound — and, pointwise, every adjacent pair before the
final one has non-decreasing length. -/
theorem generate_chunks_monotone (w : LLAMA2_WRAPPER) (prompt : String)
    (max_new_tokens : Nat) (temperature top_p : Rat) (top_k : Nat) :
    GoodChunks 0 (w.generate prompt max_new_tokens temperature top_p top_k)
    ∧ ∀ i, i + 2 < (w.generate prompt max_new_tokens temperature top_p top_k).length →
        ((w.generate prompt max_new_tokens temperature top_p top_k).getD i "").length
          ≤ ((w.generate prompt max_new_tokens temperature top_p top_k).getD (i + 1) "").length := by
  have hg : GoodChunks 0 (w.generate prompt max_new_tokens temperature top_p top_k) := by
    simp only [LLAMA2_WRAPPER.generate]
    by_cases h : w.llama_cpp = true
    · rw [if_pos h]
      exact llamaCppLoop_good w _ [] ""
    · rw [if_neg h]
      exact transformersChunks_good _ ""
  exact ⟨hg, fun i hi => goodChunks_pairwise _ 0 hg i hi⟩

/-- A transformers-flagged wrapper whose tokenizer reports 4001 input
tokens for every prompt — just over the 4000 admission ceiling. -/
def gateWrapper : LLAMA2_WRAPPER where
  llama_cpp := false
  tokenize := fun _ => []
  genTokens := fun _ _ _ _ => []
  decode := fun _ => none
  isEosStr := fun _ => false
  eosId := 0
  streamTexts := fun _ _ _ _ _ => ["hello"]
  hfTokenLen := fun _ => 4001

/-- C2: a request whose measured input token length exceeds
`MAX_INPUT_TOKEN_LENGTH` makes the submit chain fail with exactly the one
user-facing length error carrying the measured and allowed lengths, with
zero transcripts produced; the wrapper (hence the generation engine) is
universally quantified, and `generate` is behind the `.success` gate, so
the engine is never consulted on this path. -/
theorem admission_gate_rejects_oversized (MAX_MAX_NEW_TOKENS : Nat)
    (w : LLAMA2_WRAPPER) (message : String) (chatbot : Transcript)
    (system_prompt : String) (max_new_tokens : Nat) (temperature top_p : Rat)
    (top_k : Nat)
    (h : MAX_INPUT_TOKEN_LENGTH < w.get_input_token_length message chatbot system_prompt) :
    App.submit_event_chain MAX_MAX_NEW_TOKENS w message chatbot system_prompt
        max_new_tokens temperature top_p top_k
      = Except.error (AppError.lengthError
          (length_error_message (w.get_input_token_length message chatbot system_prompt))) := by
  simp [App.submit_event_chain, App.check_input_token_length, if_pos h]

/-- C2 witness: a concrete wrapper reporting 4001 tokens is rejected with
the length error naming 4001 and 4000. -/
theorem admission_gate_rejects_oversized_witness :
    App.submit_event_chain 2048 gateWrapper "Hi" [("Hi", "")] "" 1024 1 1 50
      = Except.error (AppError.lengthError (length_error_message
          (gateWrapper.get_input_token_length "Hi" [("Hi", "")] ""))) :=
  admission_gate_rejects_oversized 2048 gateWrapper "Hi" [("Hi", "")] "" 1024 1 1 50
    (by decide)

/-- C6: a request with `max_new_tokens` above the configured ceiling makes
the session's `generate` raise `ValueError` before any chunk is produced;
the wrapper is universally quantified, so the result is the same error for
every engine behaviour — the engine is never invoked. -/
theorem max_new_tokens_validation_rejects (MAX_MAX_NEW_TOKENS : Nat)
    (w : LLAMA2_WRAPPER) (message : String) (history_with_input : Transcript)
    (system_prompt : String) (max_new_tokens : Nat) (temperature top_p : Rat)
    (top_k : Nat) (h : MAX_MAX_NEW_TOKENS < max_new_tokens) :
    App.generate MAX_MAX_NEW_TOKENS w message history_with_input system_prompt
      max_new_tokens temperature top_p top_k = Except.error () := by
  simp only [App.generate, if_pos h]

/-- C6 witness: `max_new_tokens = 2049` against ceiling 2048 is rejected. -/
theorem max_new_tokens_validation_rejects_witness :
    App.generate 2048 gateWrapper "Hi" [] "" 2049 1 1 50 = Except.error () :=
  max_new_tokens_validation_rejects 2048 gateWrapper "Hi" [] "" 2049 1 1 50 (by decide)

/-- C10: every request passing the `max_new_tokens` validation yields a
non-empty list of transcripts, and when the engine yields no chunk at all
the `StopIteration` handler yields `history + [(message, "")]` exactly
once. -/
theorem session_yields_nonempty (MAX_MAX_NEW_TOKENS : Nat) (w : LLAMA2_WRAPPER)
    (message : String) (history_with_input : Transcript) (system_prompt : String)
    (max_new_tokens : Nat) (temperature top_p : Rat) (top_k : Nat)
    (h : max_new_tokens ≤ MAX_MAX_NEW_TOKENS) :
    ∃ ts : List Transcript,
      App.generate MAX_MAX_NEW_TOKENS w message history_with_input system_prompt
          max_new_tokens temperature top_p top_k = Except.ok ts
      ∧ ts ≠ []
      ∧ (w.run message history_with_input.dropLast system_prompt
            max_new_tokens temperature top_p top_k = [] →
          ts = [history_with_input.dropLast ++ [(message, "")]]) := by
  have hn : ¬ MAX_MAX_NEW_TOKENS < max_new_tokens := Nat.not_lt.mpr h
  simp only [App.generate, if_neg hn]
  cases hr : w.run message history_with_input.dropLast system_prompt
      max_new_tokens temperature top_p top_k with
  | nil =>
    refine ⟨[history_with_input.dropLast ++ [(message, "")]], by simp, by simp,
      fun _ => rfl⟩
  | cons r rs =>
    refine ⟨(r :: rs).map fun response =>
        history_with_input.dropLast ++ [(message, response)], by simp, by simp, ?_⟩
    intro hnil
    simp at hnil

/-- C10 witness: with an engine yielding no chunk and `max_new_tokens`
within the ceiling, the session yields exactly the placeholder transcript. -/
theorem session_yields_nonempty_witness :
    ∃ ts : List Transcript,
      App.generate 2048 emptyEngineWrapper "m" [] "" 10 1 1 50 = Except.ok ts
      ∧ ts ≠ []
      ∧ (emptyEngineWrapper.run "m" (List.dropLast ([] : Transcript)) "" 10 1 1 50 = [] →
          ts = [List.dropLast ([] : Transcript) ++ [("m", "")]]) :=
  session_yields_nonempty 2048 emptyEngineWrapper "m" [] "" 10 1 1 50 (by decide)

/-- C7 counterexample: a request carrying `temperature = 0`, `top_p = 0`
and `top_k = 0` — each invalid under the claimed GenerationConfig
validation — is not rejected: the session accepts it and streams. -/
theorem invalid_params_not_rejected :
    App.generate 2048 emptyEngineWrapper "m" [] "" 10 0 0 0
      = Except.ok [[("m", "")]] := rfl

/-- C7 (amended): the session validates only `max_new_tokens` against the
ceiling — a request is rejected exactly when `max_new_tokens` exceeds it;
temperature, top_p and top_k (and positivity of max_new_tokens) are never
checked and flow to the engine unvalidated. -/
theorem only_max_new_tokens_validated (MAX_MAX_NEW_TOKENS : Nat)
    (w : LLAMA2_WRAPPER) (message : String) (history_with_input : Transcript)
    (system_prompt : String) (max_new_tokens : Nat) (temperature top_p : Rat)
    (top_k : Nat) :
    (App.generate MAX_MAX_NEW_TOKENS w message history_with_input system_prompt
        max_new_tokens temperature top_p top_k = Except.error ())
      ↔ MAX_MAX_NEW_TOKENS < max_new_tokens := by
  by_cases h : MAX_MAX_NEW_TOKENS < max_new_tokens
  · simp only [App.generate, if_pos h]
    simp [h]
  · simp only [App.generate, if_neg h]
    cases hr : w.run message history_with_input.dropLast system_prompt
        max_new_tokens temperature top_p top_k with
    | nil => simp [h]
    | cons r rs => simp [h]

/-- C8: with the llama.cpp flag unset and both quantization flags set,
`create_llama2_model` selects the 4-bit (auto-gptq) loading path: the
`elif load_in_4bit` branch shadows the 8-bit flag. -/
theorem create_llama2_model_4bit_precedence (config : ModelConfig)
    (h1 : config.llama_cpp.getD false = false)
    (h2 : config.load_in_4bit = some true)
    (h3 : config.load_in_8bit = some true) :
    create_llama2_model config = ModelKind.gptq4bit := by
  simp [create_llama2_model, h1, h2]

/-- The config dict of a run that sets both quantization flags and leaves
llama_cpp false. -/
def bothFlagsConfig : ModelConfig where
  load_in_8bit := some true
  load_in_4bit := some true
  llama_cpp := some false

/-- C8 witness: the concrete config with both flags set and llama_cpp
unset loads 4-bit. -/
theorem create_llama2_model_4bit_precedence_witness :
    create_llama2_model bothFlagsConfig = ModelKind.gptq4bit :=
  create_llama2_model_4bit_precedence bothFlagsConfig rfl rfl rfl
